import Mathlib

/-!
Verification of the relay/pairing server (src/relay_server.js).

The server keeps two maps, pcConnections and phoneConnections, from a
pairing token to a WebSocket connection.  Connections are modelled by
natural-number identifiers; `RelayState.conns` records, for each identifier,
whether the socket readyState is OPEN, the list of messages the server has
sent to it (oldest first), and the close code and reason if the server
called close on it.

Outbound messages are modelled by an inductive type with one constructor
per JSON.stringify site in the source, plus `OutMsg.raw` for the verbatim
relay of an incoming message string.  An incoming message carries its raw
string together with the result of JSON.parse (the external library call),
reduced to the one field the server inspects, `type`, plus the opaque rest
of the payload.
-/

/-- Result of JSON.parse on an incoming message: the `type` discriminator
field, if present, and the rest of the payload kept opaque. -/
structure ParsedMsg where
  type : Option String
  payload : String
  deriving DecidableEq, Repr

/-- An incoming frame: the raw string `data.toString()` together with the
outcome of JSON.parse on it (`none` when parsing throws). -/
structure InMsg where
  raw : String
  parsed : Option ParsedMsg
  deriving DecidableEq, Repr

/-- One constructor per message the server itself sends, mirroring the
JSON.stringify call sites in src/relay_server.js, plus `raw` for the
verbatim forward of an incoming string. -/
inductive OutMsg where
  /-- JSON.stringify of the type relay_status object with field pc_connected. -/
  | relayStatusPc : Bool → OutMsg
  /-- JSON.stringify of the type relay_status object with field phone_connected. -/
  | relayStatusPhone : Bool → OutMsg
  /-- JSON.stringify of the object with type relay_status, status connected, role pc. -/
  | pcWelcome : OutMsg
  /-- JSON.stringify of the object with type relay_status, pc_connected, status connected, role phone. -/
  | phoneWelcome : Bool → OutMsg
  /-- JSON.stringify of the error object: PC not connected, pc_connected false. -/
  | errPcNotConnected : OutMsg
  /-- JSON.stringify of the error object: Invalid message format. -/
  | errInvalidFormat : OutMsg
  /-- JSON.stringify of the parsed auth payload, in handleAuthMessage. -/
  | authEcho : ParsedMsg → OutMsg
  /-- The incoming message string forwarded verbatim. -/
  | raw : String → OutMsg
  deriving DecidableEq, Repr

/-- The server-visible state of one WebSocket. -/
structure ConnState where
  /-- readyState equals WebSocket.OPEN. -/
  isOpen : Bool
  /-- Messages the server sent to this socket, oldest first. -/
  sent : List OutMsg
  /-- Code and reason of a server-side close call, if one happened. -/
  closeInfo : Option (Nat × String)
  deriving DecidableEq, Repr

/-- The whole relay state: the two token maps of the RelayServer class and
the environment of all connections. -/
structure RelayState where
  pcConnections : String → Option Nat
  phoneConnections : String → Option Nat
  conns : Nat → ConnState

/-- ws.send(m): append m to the sent list of connection c. -/
def send (s : RelayState) (c : Nat) (m : OutMsg) : RelayState :=
  { s with conns := fun i =>
      if i = c then { s.conns i with sent := (s.conns i).sent ++ [m] } else s.conns i }

/-- ws.close(code, reason): record the close and drop OPEN, a no-op when the
socket was already closed. -/
def wsClose (s : RelayState) (c : Nat) (code : Nat) (reason : String) : RelayState :=
  { s with conns := fun i =>
      if i = c then
        (if (s.conns i).closeInfo = none then
          { s.conns i with isOpen := false, closeInfo := some (code, reason) }
         else s.conns i)
      else s.conns i }

/-- The liveness test `w && w.readyState === WebSocket.OPEN` applied to a
map lookup result. -/
def isLive (s : RelayState) : Option Nat → Bool
  | some c => (s.conns c).isOpen
  | none => false

/-- handlePCConnection(ws, token): close any existing PC for the token,
install ws, notify the phone if it is open, send the PC its welcome. -/
def handlePCConnection (s : RelayState) (ws : Nat) (token : String) : RelayState :=
  let s1 := match s.pcConnections token with
    | some oldPC => wsClose s oldPC 1000 "New PC connection"
    | none => s
  let s2 := { s1 with pcConnections := fun t =>
      if t = token then some ws else s1.pcConnections t }
  let s3 := match s2.phoneConnections token with
    | some phoneWS =>
        if (s2.conns phoneWS).isOpen then send s2 phoneWS (OutMsg.relayStatusPc true) else s2
    | none => s2
  send s3 ws OutMsg.pcWelcome

/-- handlePhoneConnection(ws, token): close any existing phone for the token,
install ws, send the phone its welcome carrying the PC liveness, notify the
PC if it is open. -/
def handlePhoneConnection (s : RelayState) (ws : Nat) (token : String) : RelayState :=
  let s1 := match s.phoneConnections token with
    | some oldPhone => wsClose s oldPhone 1000 "New phone connection"
    | none => s
  let s2 := { s1 with phoneConnections := fun t =>
      if t = token then some ws else s1.phoneConnections t }
  let pcWS := s2.pcConnections token
  let pcConnected := isLive s2 pcWS
  let s3 := send s2 ws (OutMsg.phoneWelcome pcConnected)
  if pcConnected then
    match pcWS with
    | some p => send s3 p (OutMsg.relayStatusPhone true)
    | none => s3
  else s3

/-- handleAuthMessage(token, clientType, data): pass the parsed auth payload
through to the opposite map entry when it exists and is open. -/
def handleAuthMessage (s : RelayState) (token : String) (clientType : String)
    (d : ParsedMsg) : RelayState :=
  let targetWS := if clientType = "phone" then s.pcConnections token
                  else s.phoneConnections token
  match targetWS with
  | some t => if (s.conns t).isOpen then send s t (OutMsg.authEcho d) else s
  | none => s

/-- handleMessage(ws, token, clientType, message): parse, special-case auth,
relay phone to PC (error back when the PC is absent or not open), relay PC
to phone (silently dropped when the phone is absent or not open). -/
def handleMessage (s : RelayState) (ws : Nat) (token : String) (clientType : String)
    (msg : InMsg) : RelayState :=
  match msg.parsed with
  | none => send s ws OutMsg.errInvalidFormat
  | some d =>
    if d.type = some "auth" then handleAuthMessage s token clientType d
    else if clientType = "phone" then
      match s.pcConnections token with
      | some pcWS =>
          if (s.conns pcWS).isOpen then send s pcWS (OutMsg.raw msg.raw)
          else send s ws OutMsg.errPcNotConnected
      | none => send s ws OutMsg.errPcNotConnected
    else if clientType = "pc" then
      match s.phoneConnections token with
      | some phoneWS =>
          if (s.conns phoneWS).isOpen then send s phoneWS (OutMsg.raw msg.raw) else s
      | none => s
    else s

/-- handleDisconnection(token, clientType): delete the map entry for the
role, then notify the opposite side if it is open. -/
def handleDisconnection (s : RelayState) (token : String) (clientType : String) :
    RelayState :=
  if clientType = "pc" then
    let s1 := { s with pcConnections := fun t =>
        if t = token then none else s.pcConnections t }
    match s1.phoneConnections token with
    | some phoneWS =>
        if (s1.conns phoneWS).isOpen then send s1 phoneWS (OutMsg.relayStatusPc false) else s1
    | none => s1
  else
    let s1 := { s with phoneConnections := fun t =>
        if t = token then none else s.phoneConnections t }
    match s1.pcConnections token with
    | some pcWS =>
        if (s1.conns pcWS).isOpen then send s1 pcWS (OutMsg.relayStatusPhone false) else s1
    | none => s1

/-- JS falsiness of the token query parameter: absent, or the empty string. -/
def tokenMissing : Option String → Bool
  | none => true
  | some t => t = ""

/-- The check `clientType && [pc, phone].includes(clientType)`. -/
def validClientType : Option String → Bool
  | some c => c = "pc" || c = "phone"
  | none => false

/-- The connection handler installed by setupWebSocketServer: validate the
query parameters, close with 1008 on a bad handshake, otherwise dispatch on
the client type. -/
def onConnection (s : RelayState) (ws : Nat) (token clientType : Option String) :
    RelayState :=
  if tokenMissing token then wsClose s ws 1008 "Token required"
  else if validClientType clientType = false then
    wsClose s ws 1008 "Client type must be \"pc\" or \"phone\""
  else
    let t := token.getD ""
    if clientType = some "pc" then handlePCConnection s ws t
    else handlePhoneConnection s ws t

/-- A sequence of message events from one sender, processed in arrival
order by handleMessage. -/
def routeAll (s : RelayState) (ws : Nat) (token clientType : String)
    (msgs : List InMsg) : RelayState :=
  msgs.foldl (fun st m => handleMessage st ws token clientType m) s

/-! ### Basic lemmas about the transport primitives -/

@[simp] theorem send_pcConnections (s : RelayState) (c : Nat) (m : OutMsg) :
    (send s c m).pcConnections = s.pcConnections := rfl

@[simp] theorem send_phoneConnections (s : RelayState) (c : Nat) (m : OutMsg) :
    (send s c m).phoneConnections = s.phoneConnections := rfl

@[simp] theorem send_sent_self (s : RelayState) (c : Nat) (m : OutMsg) :
    ((send s c m).conns c).sent = (s.conns c).sent ++ [m] := by
  simp [send]

theorem send_conns_ne (s : RelayState) (c : Nat) (m : OutMsg) (i : Nat) (h : i ≠ c) :
    (send s c m).conns i = s.conns i := by
  simp [send, h]

@[simp] theorem send_isOpen (s : RelayState) (c : Nat) (m : OutMsg) (i : Nat) :
    ((send s c m).conns i).isOpen = (s.conns i).isOpen := by
  by_cases h : i = c <;> simp [send, h]

@[simp] theorem send_closeInfo (s : RelayState) (c : Nat) (m : OutMsg) (i : Nat) :
    ((send s c m).conns i).closeInfo = (s.conns i).closeInfo := by
  by_cases h : i = c <;> simp [send, h]

@[simp] theorem wsClose_pcConnections (s : RelayState) (c k : Nat) (r : String) :
    (wsClose s c k r).pcConnections = s.pcConnections := rfl

@[simp] theorem wsClose_phoneConnections (s : RelayState) (c k : Nat) (r : String) :
    (wsClose s c k r).phoneConnections = s.phoneConnections := rfl

@[simp] theorem wsClose_sent (s : RelayState) (c k : Nat) (r : String) (i : Nat) :
    ((wsClose s c k r).conns i).sent = (s.conns i).sent := by
  by_cases h : i = c
  · subst h
    by_cases h2 : (s.conns i).closeInfo = none <;> simp [wsClose, h2]
  · simp [wsClose, h]

theorem wsClose_conns_ne (s : RelayState) (c k : Nat) (r : String) (i : Nat) (h : i ≠ c) :
    (wsClose s c k r).conns i = s.conns i := by
  simp [wsClose, h]

theorem wsClose_closeInfo_self (s : RelayState) (c k : Nat) (r : String)
    (h : (s.conns c).closeInfo = none) :
    ((wsClose s c k r).conns c).closeInfo = some (k, r) := by
  simp [wsClose, h]

theorem wsClose_isOpen_self (s : RelayState) (c k : Nat) (r : String)
    (h : (s.conns c).closeInfo = none) :
    ((wsClose s c k r).conns c).isOpen = false := by
  simp [wsClose, h]

@[simp] theorem isLive_none (s : RelayState) : isLive s none = false := rfl

@[simp] theorem isLive_some (s : RelayState) (c : Nat) :
    isLive s (some c) = (s.conns c).isOpen := rfl

/-! ### Concrete states used by counterexamples and witnesses -/

/-- Empty registry; every connection open with nothing sent. -/
def sEmpty : RelayState :=
  { pcConnections := fun _ => none
    phoneConnections := fun _ => none
    conns := fun _ => ⟨true, [], none⟩ }

/-- Registry with an open PC (id 0) registered for token t, no phone. -/
def sPCOnly : RelayState :=
  { pcConnections := fun t => if t = "t" then some 0 else none
    phoneConnections := fun _ => none
    conns := fun _ => ⟨true, [], none⟩ }

/-! ### C1: peer-unavailable handling -/

/-- C1 counterexample: with PC 0 registered and open for token t and no phone
registered, a non-auth message from the PC side produces no synthetic error
to the sender (its sent list stays empty), contradicting the claim that both
sender roles receive a peer-not-connected error. -/
theorem pc_sender_gets_no_error_when_phone_absent :
    ((handleMessage sPCOnly 0 "t" "pc" ⟨"m1", some ⟨some "click", "m1"⟩⟩).conns 0).sent = []
    ∧ ((handleMessage sPCOnly 0 "t" "pc" ⟨"m1", some ⟨some "click", "m1"⟩⟩).conns 1).sent
        = [] := by
  decide

/-- C1 (amended): when the peer slot is empty or its connection is not open,
a non-auth message from the phone yields exactly one PC-not-connected error
back to the phone and nothing else (the state equals a single send to the
sender), while a non-auth message from the PC is dropped silently: the state
is unchanged, so the PC sender receives no error envelope. -/
theorem route_peer_unavailable (s : RelayState) (ws : Nat) (tk : String) (msg : InMsg)
    (d : ParsedMsg) (hp : msg.parsed = some d) (hauth : ¬ d.type = some "auth") :
    (isLive s (s.pcConnections tk) = false →
        handleMessage s ws tk "phone" msg = send s ws OutMsg.errPcNotConnected)
    ∧ (isLive s (s.phoneConnections tk) = false →
        handleMessage s ws tk "pc" msg = s) := by
  constructor
  · intro hdead
    cases hpc : s.pcConnections tk with
    | none => simp [handleMessage, hp, hauth, hpc]
    | some p =>
        rw [hpc, isLive_some] at hdead
        simp [handleMessage, hp, hauth, hpc, hdead]
  · intro hdead
    cases hph : s.phoneConnections tk with
    | none => simp [handleMessage, hp, hauth, hph]
    | some q =>
        rw [hph, isLive_some] at hdead
        simp [handleMessage, hp, hauth, hph, hdead]

/-- C1 witness: the amended behaviour at the empty registry. -/
theorem route_peer_unavailable_witness :
    handleMessage sEmpty 0 "t" "phone" ⟨"m", some ⟨some "click", "m"⟩⟩
        = send sEmpty 0 OutMsg.errPcNotConnected
    ∧ handleMessage sEmpty 0 "t" "pc" ⟨"m", some ⟨some "click", "m"⟩⟩ = sEmpty := by
  exact ⟨(route_peer_unavailable sEmpty 0 "t" _ ⟨some "click", "m"⟩ rfl (by decide)).1 rfl,
         (route_peer_unavailable sEmpty 0 "t" _ ⟨some "click", "m"⟩ rfl (by decide)).2 rfl⟩

/-! ### C2: stale close events -/

/-- C2: handleDisconnection deletes the slot unconditionally.  Register PC 0
for token t, then PC 1: connection 0 is closed (reason New PC connection)
while 1 is open, registered and never closed.  The close event of the
superseded connection 0 then fires handleDisconnection for (t, pc), which
removes the still-open connection 1 from the slot — a stale close clears
the new connection, contrary to the guard the specification describes. -/
theorem stale_close_clears_new_connection :
    (handlePCConnection (handlePCConnection sEmpty 0 "t") 1 "t").pcConnections "t" = some 1
    ∧ ((handlePCConnection (handlePCConnection sEmpty 0 "t") 1 "t").conns 0).closeInfo
        = some (1000, "New PC connection")
    ∧ ((handlePCConnection (handlePCConnection sEmpty 0 "t") 1 "t").conns 1).closeInfo = none
    ∧ ((handlePCConnection (handlePCConnection sEmpty 0 "t") 1 "t").conns 1).isOpen = true
    ∧ (handleDisconnection (handlePCConnection (handlePCConnection sEmpty 0 "t") 1 "t")
        "t" "pc").pcConnections "t" = none := by
  decide

theorem wsClose_isOpen_mono (s : RelayState) (c k : Nat) (r : String) (i : Nat)
    (h : (s.conns i).isOpen = false) : ((wsClose s c k r).conns i).isOpen = false := by
  by_cases hic : i = c
  · subst hic
    by_cases h2 : (s.conns i).closeInfo = none <;> simp [wsClose, h2, h]
  · simp [wsClose, hic, h]

/-! ### C3: registration status notifications -/

/-- Registry with an open phone (id 5) registered for token t, no PC. -/
def sPhoneLive : RelayState :=
  { pcConnections := fun _ => none
    phoneConnections := fun t => if t = "t" then some 5 else none
    conns := fun _ => ⟨true, [], none⟩ }

/-- C3 counterexample: a newly registered PC receives exactly the same
welcome message, pcWelcome, whether its phone peer is live (sPhoneLive) or
the phone slot is empty (sEmpty) — so the notification sent to a PC arrival
does not report the peer slot liveness, contradicting the claim for the
desktop role. -/
theorem pc_welcome_ignores_phone_liveness :
    ((handlePCConnection sPhoneLive 1 "t").conns 1).sent = [OutMsg.pcWelcome]
    ∧ ((handlePCConnection sEmpty 1 "t").conns 1).sent = [OutMsg.pcWelcome] := by
  decide

/-- C3 (amended): a phone arrival is told the PC liveness inside its welcome
(phoneWelcome true or false), and a live PC peer is notified of the phone
arrival; a PC arrival receives the fixed welcome pcWelcome carrying no
peer-liveness information, and a live phone peer is notified of the PC
arrival. -/
theorem accept_status_notifications (s : RelayState) (ws : Nat) (tk : String) :
    (∀ p, s.pcConnections tk = some p → (s.conns p).isOpen = true → p ≠ ws →
        s.phoneConnections tk ≠ some p →
        ((handlePhoneConnection s ws tk).conns ws).sent
            = (s.conns ws).sent ++ [OutMsg.phoneWelcome true]
        ∧ ((handlePhoneConnection s ws tk).conns p).sent
            = (s.conns p).sent ++ [OutMsg.relayStatusPhone true])
    ∧ (isLive s (s.pcConnections tk) = false →
        ((handlePhoneConnection s ws tk).conns ws).sent
            = (s.conns ws).sent ++ [OutMsg.phoneWelcome false])
    ∧ (∀ q, s.phoneConnections tk = some q → (s.conns q).isOpen = true → q ≠ ws →
        s.pcConnections tk ≠ some q →
        ((handlePCConnection s ws tk).conns ws).sent
            = (s.conns ws).sent ++ [OutMsg.pcWelcome]
        ∧ ((handlePCConnection s ws tk).conns q).sent
            = (s.conns q).sent ++ [OutMsg.relayStatusPc true])
    ∧ (isLive s (s.phoneConnections tk) = false →
        ((handlePCConnection s ws tk).conns ws).sent
            = (s.conns ws).sent ++ [OutMsg.pcWelcome]) := by
  refine ⟨?_, ?_, ?_, ?_⟩
  · intro p hpc hopen hpw hpph
    cases hold : s.phoneConnections tk with
    | none =>
        simp [handlePhoneConnection, hold, hpc, hopen, hpw, send_conns_ne, Ne.symm hpw]
    | some oldPhone =>
        have hop : oldPhone ≠ p := by
          intro h; rw [h] at hold; exact hpph hold
        simp [handlePhoneConnection, hold, hpc, wsClose_conns_ne _ _ _ _ _ hop.symm, hopen,
          send_conns_ne, Ne.symm hpw, hpw]
  · intro hdead
    cases hold : s.phoneConnections tk with
    | none =>
        cases hpc : s.pcConnections tk with
        | none => simp [handlePhoneConnection, hold, hpc]
        | some p =>
            rw [hpc, isLive_some] at hdead
            simp [handlePhoneConnection, hold, hpc, hdead]
    | some oldPhone =>
        cases hpc : s.pcConnections tk with
        | none => simp [handlePhoneConnection, hold, hpc]
        | some p =>
            rw [hpc, isLive_some] at hdead
            have hcl : ((wsClose s oldPhone 1000 "New phone connection").conns p).isOpen
                = false := wsClose_isOpen_mono _ _ _ _ _ hdead
            simp [handlePhoneConnection, hold, hpc, hcl]
  · intro q hph hopen hqw hqpc
    cases hold : s.pcConnections tk with
    | none =>
        simp [handlePCConnection, hold, hph, hopen, hqw, send_conns_ne, Ne.symm hqw]
    | some oldPC =>
        have hoq : oldPC ≠ q := by
          intro h; rw [h] at hold; exact hqpc hold
        simp [handlePCConnection, hold, hph, wsClose_conns_ne _ _ _ _ _ hoq.symm, hopen,
          send_conns_ne, Ne.symm hqw, hqw]
  · intro hdead
    cases hold : s.pcConnections tk with
    | none =>
        cases hph : s.phoneConnections tk with
        | none => simp [handlePCConnection, hold, hph]
        | some q =>
            rw [hph, isLive_some] at hdead
            simp [handlePCConnection, hold, hph, hdead]
    | some oldPC =>
        cases hph : s.phoneConnections tk with
        | none => simp [handlePCConnection, hold, hph]
        | some q =>
            rw [hph, isLive_some] at hdead
            have hcl : ((wsClose s oldPC 1000 "New PC connection").conns q).isOpen
                = false := wsClose_isOpen_mono _ _ _ _ _ hdead
            simp [handlePCConnection, hold, hph, hcl]

/-- C3 witness: the amended notifications at concrete registries. -/
theorem accept_status_notifications_witness :
    ((handlePhoneConnection sPCOnly 1 "t").conns 1).sent = [OutMsg.phoneWelcome true]
    ∧ ((handlePhoneConnection sPCOnly 1 "t").conns 0).sent = [OutMsg.relayStatusPhone true]
    ∧ ((handlePCConnection sPhoneLive 1 "t").conns 1).sent = [OutMsg.pcWelcome]
    ∧ ((handlePCConnection sPhoneLive 1 "t").conns 5).sent = [OutMsg.relayStatusPc true] := by
  have h1 := (accept_status_notifications sPCOnly 1 "t").1 0 rfl rfl (by decide) (by decide)
  have h3 := (accept_status_notifications sPhoneLive 1 "t").2.2.1 5 rfl rfl (by decide)
    (by decide)
  exact ⟨by simpa [sPCOnly] using h1.1, by simpa [sPCOnly] using h1.2,
    by simpa [sPhoneLive] using h3.1, by simpa [sPhoneLive] using h3.2⟩

/-! ### C4: authentication passthrough -/

/-- Registry with PC 0 registered for token t but not open, no phone. -/
def sPCDead : RelayState :=
  { pcConnections := fun t => if t = "t" then some 0 else none
    phoneConnections := fun _ => none
    conns := fun _ => ⟨false, [], none⟩ }

/-- C4 counterexample: PC 0 occupies the slot for token t but is not open;
an auth message from the phone side is not forwarded (the state is
unchanged), contradicting the claim that occupancy alone suffices. -/
theorem auth_not_forwarded_to_nonlive_peer :
    sPCDead.pcConnections "t" = some 0
    ∧ handleAuthMessage sPCDead "t" "phone" ⟨some "auth", "p"⟩ = sPCDead := by
  exact ⟨rfl, rfl⟩

/-- C4 (amended): an auth envelope is forwarded to the peer exactly when the
peer slot is occupied AND that connection is open (readyState OPEN); with an
occupied but non-open peer, or an empty slot, nothing happens at all. The
payload is re-serialised from the parsed data (authEcho), and no validation
occurs: the state change is a single send. -/
theorem auth_forward_requires_live_peer (s : RelayState) (tk ct : String) (d : ParsedMsg) :
    (∀ p, (if ct = "phone" then s.pcConnections tk else s.phoneConnections tk) = some p →
        ((s.conns p).isOpen = true →
            handleAuthMessage s tk ct d = send s p (OutMsg.authEcho d))
        ∧ ((s.conns p).isOpen = false → handleAuthMessage s tk ct d = s))
    ∧ ((if ct = "phone" then s.pcConnections tk else s.phoneConnections tk) = none →
        handleAuthMessage s tk ct d = s) := by
  by_cases hct : ct = "phone"
  · subst hct
    refine ⟨fun p hp => ?_, fun hp => ?_⟩
    · have hp' : s.pcConnections tk = some p := by simpa using hp
      exact ⟨fun ho => by simp [handleAuthMessage, hp', ho],
             fun ho => by simp [handleAuthMessage, hp', ho]⟩
    · have hp' : s.pcConnections tk = none := by simpa using hp
      simp [handleAuthMessage, hp']
  · refine ⟨fun p hp => ?_, fun hp => ?_⟩
    · have hp' : s.phoneConnections tk = some p := by simpa [hct] using hp
      exact ⟨fun ho => by simp [handleAuthMessage, hct, hp', ho],
             fun ho => by simp [handleAuthMessage, hct, hp', ho]⟩
    · have hp' : s.phoneConnections tk = none := by simpa [hct] using hp
      simp [handleAuthMessage, hct, hp']

/-- C4 witness: forwarded to the open PC 0 of sPCOnly, dropped for the
non-open PC 0 of sPCDead. -/
theorem auth_forward_requires_live_peer_witness :
    handleAuthMessage sPCOnly "t" "phone" ⟨some "auth", "p"⟩
        = send sPCOnly 0 (OutMsg.authEcho ⟨some "auth", "p"⟩)
    ∧ handleAuthMessage sPCDead "t" "phone" ⟨some "auth", "q"⟩ = sPCDead := by
  exact ⟨((auth_forward_requires_live_peer sPCOnly "t" "phone" ⟨some "auth", "p"⟩).1
            0 rfl).1 rfl,
         ((auth_forward_requires_live_peer sPCDead "t" "phone" ⟨some "auth", "q"⟩).1
            0 rfl).2 rfl⟩

/-! ### C5: verbatim in-order forwarding -/

theorem handleMessage_forwards_step (s : RelayState) (ws : Nat) (tk ct : String)
    (msg : InMsg) (d : ParsedMsg) (p : Nat)
    (hp : msg.parsed = some d) (hauth : ¬ d.type = some "auth")
    (hct : ct = "phone" ∨ ct = "pc")
    (hslot : (if ct = "phone" then s.pcConnections tk else s.phoneConnections tk) = some p)
    (hopen : (s.conns p).isOpen = true) :
    handleMessage s ws tk ct msg = send s p (OutMsg.raw msg.raw) := by
  rcases hct with h | h <;> subst h
  · have hslot' : s.pcConnections tk = some p := by simpa using hslot
    simp [handleMessage, hp, hauth, hslot', hopen]
  · have hslot' : s.phoneConnections tk = some p := by simpa using hslot
    simp [handleMessage, hp, hauth, hslot', hopen]

/-- C5: while the peer slot for the token is occupied by an open connection
p, a sequence of parseable non-auth messages from the one sender (phone with
peer map pcConnections, or pc with peer map phoneConnections) is delivered
to p verbatim — each forwarded frame is OutMsg.raw of the exact incoming
string — and in send order: the sent list of p is extended by exactly the
raw images of the input list, in list order, with no reordering, batching
or merging. -/
theorem route_forwards_in_order (ct : String) (hct : ct = "phone" ∨ ct = "pc")
    (ws p : Nat) (tk : String) :
    ∀ (msgs : List InMsg) (s : RelayState),
      (if ct = "phone" then s.pcConnections tk else s.phoneConnections tk) = some p →
      (s.conns p).isOpen = true →
      (∀ m ∈ msgs, ∃ d, m.parsed = some d ∧ ¬ d.type = some "auth") →
      ((routeAll s ws tk ct msgs).conns p).sent
          = (s.conns p).sent ++ msgs.map (fun m => OutMsg.raw m.raw) := by
  intro msgs
  induction msgs with
  | nil => intro s _ _ _; simp [routeAll]
  | cons m ms ih =>
      intro s hslot hopen hmsgs
      obtain ⟨d, hd, hda⟩ := hmsgs m (by simp)
      have hstep : handleMessage s ws tk ct m = send s p (OutMsg.raw m.raw) :=
        handleMessage_forwards_step s ws tk ct m d p hd hda hct hslot hopen
      have hra : routeAll s ws tk ct (m :: ms)
          = routeAll (handleMessage s ws tk ct m) ws tk ct ms := rfl
      have hslot2 : (if ct = "phone" then (send s p (OutMsg.raw m.raw)).pcConnections tk
          else (send s p (OutMsg.raw m.raw)).phoneConnections tk) = some p := by
        simpa using hslot
      have hopen2 : ((send s p (OutMsg.raw m.raw)).conns p).isOpen = true := by
        simpa using hopen
      have hmsgs2 : ∀ x ∈ ms, ∃ d, x.parsed = some d ∧ ¬ d.type = some "auth" :=
        fun x hx => hmsgs x (by simp [hx])
      rw [hra, hstep, ih (send s p (OutMsg.raw m.raw)) hslot2 hopen2 hmsgs2]
      simp

/-- C5 witness: two controller messages for token t reach the open PC 0 in
order and verbatim. -/
theorem route_forwards_in_order_witness :
    ((routeAll sPCOnly 7 "t" "phone"
        [⟨"a", some ⟨some "click", "a"⟩⟩, ⟨"b", some ⟨none, "b"⟩⟩]).conns 0).sent
      = [OutMsg.raw "a", OutMsg.raw "b"] := by
  have h := route_forwards_in_order "phone" (Or.inl rfl) 7 0 "t"
      [⟨"a", some ⟨some "click", "a"⟩⟩, ⟨"b", some ⟨none, "b"⟩⟩] sPCOnly rfl rfl
      (by
        intro m hm
        simp only [List.mem_cons, List.mem_singleton] at hm
        rcases hm with rfl | rfl | h
        · exact ⟨⟨some "click", "a"⟩, rfl, by decide⟩
        · exact ⟨⟨none, "b"⟩, rfl, by decide⟩
        · cases h)
  simpa [sPCOnly] using h

/-! ### C6 and C7: supersession -/

theorem handlePCConnection_slot (s : RelayState) (ws : Nat) (tk : String) :
    (handlePCConnection s ws tk).pcConnections tk = some ws := by
  cases hold : s.pcConnections tk with
  | none =>
      cases hph : s.phoneConnections tk with
      | none => simp [handlePCConnection, hold, hph]
      | some q =>
          by_cases hq : (s.conns q).isOpen = true <;>
            simp [handlePCConnection, hold, hph, hq]
  | some old =>
      cases hph : s.phoneConnections tk with
      | none => simp [handlePCConnection, hold, hph]
      | some q =>
          by_cases hq : ((wsClose s old 1000 "New PC connection").conns q).isOpen = true <;>
            simp [handlePCConnection, hold, hph, hq]

theorem handlePhoneConnection_slot (s : RelayState) (ws : Nat) (tk : String) :
    (handlePhoneConnection s ws tk).phoneConnections tk = some ws := by
  cases hold : s.phoneConnections tk with
  | none =>
      cases hpc : s.pcConnections tk with
      | none => simp [handlePhoneConnection, hold, hpc]
      | some p =>
          by_cases hq : (s.conns p).isOpen = true <;>
            simp [handlePhoneConnection, hold, hpc, hq]
  | some old =>
      cases hpc : s.pcConnections tk with
      | none => simp [handlePhoneConnection, hold, hpc]
      | some p =>
          by_cases hq : ((wsClose s old 1000 "New phone connection").conns p).isOpen = true <;>
            simp [handlePhoneConnection, hold, hpc, hq]

theorem handlePCConnection_old_conn (s : RelayState) (ws old : Nat) (tk : String)
    (hold : s.pcConnections tk = some old)
    (hnone : (s.conns old).closeInfo = none) :
    ((handlePCConnection s ws tk).conns old).isOpen = false
    ∧ ((handlePCConnection s ws tk).conns old).closeInfo
        = some (1000, "New PC connection") := by
  cases hph : s.phoneConnections tk with
  | none =>
      simp [handlePCConnection, hold, hph, wsClose_isOpen_self _ _ _ _ hnone,
        wsClose_closeInfo_self _ _ _ _ hnone]
  | some q =>
      by_cases hq : ((wsClose s old 1000 "New PC connection").conns q).isOpen = true <;>
        simp [handlePCConnection, hold, hph, hq, wsClose_isOpen_self _ _ _ _ hnone,
          wsClose_closeInfo_self _ _ _ _ hnone]

theorem handlePhoneConnection_old_conn (s : RelayState) (ws old : Nat) (tk : String)
    (hold : s.phoneConnections tk = some old)
    (hnone : (s.conns old).closeInfo = none) :
    ((handlePhoneConnection s ws tk).conns old).isOpen = false
    ∧ ((handlePhoneConnection s ws tk).conns old).closeInfo
        = some (1000, "New phone connection") := by
  cases hpc : s.pcConnections tk with
  | none =>
      simp [handlePhoneConnection, hold, hpc, wsClose_isOpen_self _ _ _ _ hnone,
        wsClose_closeInfo_self _ _ _ _ hnone]
  | some p =>
      by_cases hq : ((wsClose s old 1000 "New phone connection").conns p).isOpen = true <;>
        simp [handlePhoneConnection, hold, hpc, hq, wsClose_isOpen_self _ _ _ _ hnone,
          wsClose_closeInfo_self _ _ _ _ hnone]

/-- C6: after a registration, the slot holds exactly the new connection, and
any previously registered connection (not closed before) has been closed by
the operation: it is no longer open and carries close information, so the
old and the new connection never both occupy the slot and the displaced one
is not left dangling; this holds for both the PC and the phone slot. -/
theorem slot_supersede_exclusive (s : RelayState) (ws old : Nat) (tk : String) :
    ((handlePCConnection s ws tk).pcConnections tk = some ws
      ∧ (s.pcConnections tk = some old → (s.conns old).closeInfo = none →
          ((handlePCConnection s ws tk).conns old).isOpen = false
          ∧ (((handlePCConnection s ws tk).conns old).closeInfo).isSome = true))
    ∧ ((handlePhoneConnection s ws tk).phoneConnections tk = some ws
      ∧ (s.phoneConnections tk = some old → (s.conns old).closeInfo = none →
          ((handlePhoneConnection s ws tk).conns old).isOpen = false
          ∧ (((handlePhoneConnection s ws tk).conns old).closeInfo).isSome = true)) := by
  refine ⟨⟨handlePCConnection_slot s ws tk, fun h1 h2 => ?_⟩,
          ⟨handlePhoneConnection_slot s ws tk, fun h1 h2 => ?_⟩⟩
  · obtain ⟨ha, hb⟩ := handlePCConnection_old_conn s ws old tk h1 h2
    exact ⟨ha, by simp [hb]⟩
  · obtain ⟨ha, hb⟩ := handlePhoneConnection_old_conn s ws old tk h1 h2
    exact ⟨ha, by simp [hb]⟩

/-- C6 witness: PC 1 displaces PC 0 for token t. -/
theorem slot_supersede_exclusive_witness :
    (handlePCConnection sPCOnly 1 "t").pcConnections "t" = some 1
    ∧ ((handlePCConnection sPCOnly 1 "t").conns 0).isOpen = false
    ∧ (((handlePCConnection sPCOnly 1 "t").conns 0).closeInfo).isSome = true := by
  have h := slot_supersede_exclusive sPCOnly 1 0 "t"
  exact ⟨h.1.1, (h.1.2 rfl rfl).1, (h.1.2 rfl rfl).2⟩

/-- C7 counterexample: the displaced PC 0 is closed with code 1000 but the
reason string is New PC connection, not the claimed reason superseded; the
displaced phone 5 likewise gets reason New phone connection. -/
theorem supersede_reason_not_superseded :
    ((handlePCConnection sPCOnly 1 "t").conns 0).closeInfo
        = some (1000, "New PC connection")
    ∧ ((handlePCConnection sPCOnly 1 "t").conns 0).closeInfo ≠ some (1000, "superseded")
    ∧ ((handlePhoneConnection sPhoneLive 1 "t").conns 5).closeInfo
        = some (1000, "New phone connection") := by
  decide

/-- C7 (amended): a displaced connection is closed with the normal-closure
code 1000, with reason string New PC connection for the PC slot and New
phone connection for the phone slot (not the reason superseded). -/
theorem supersede_close_code_reason (s : RelayState) (ws old : Nat) (tk : String)
    (hnone : (s.conns old).closeInfo = none) :
    (s.pcConnections tk = some old →
        ((handlePCConnection s ws tk).conns old).closeInfo
          = some (1000, "New PC connection"))
    ∧ (s.phoneConnections tk = some old →
        ((handlePhoneConnection s ws tk).conns old).closeInfo
          = some (1000, "New phone connection")) := by
  exact ⟨fun h => (handlePCConnection_old_conn s ws old tk h hnone).2,
         fun h => (handlePhoneConnection_old_conn s ws old tk h hnone).2⟩

/-- C7 witness: the close codes and reasons of displaced connections. -/
theorem supersede_close_code_reason_witness :
    ((handlePCConnection sPCOnly 1 "t").conns 0).closeInfo
        = some (1000, "New PC connection")
    ∧ ((handlePhoneConnection sPhoneLive 2 "t").conns 5).closeInfo
        = some (1000, "New phone connection") := by
  exact ⟨(supersede_close_code_reason sPCOnly 1 0 "t" rfl).1 rfl,
         (supersede_close_code_reason sPhoneLive 2 5 "t" rfl).2 rfl⟩

/-! ### C8: handshake validation -/

/-- C8: when the token parameter is absent or empty, or the client parameter
is absent or not pc/phone, the connection handler closes the transport with
the policy-violation code 1008, modifies no registry slot, and sends no
message to any connection. -/
theorem malformed_handshake_rejected (s : RelayState) (ws : Nat)
    (token client : Option String)
    (h : tokenMissing token = true ∨ validClientType client = false)
    (hnc : (s.conns ws).closeInfo = none) :
    (∃ r, ((onConnection s ws token client).conns ws).closeInfo = some (1008, r))
    ∧ ((onConnection s ws token client).conns ws).isOpen = false
    ∧ (∀ t, (onConnection s ws token client).pcConnections t = s.pcConnections t)
    ∧ (∀ t, (onConnection s ws token client).phoneConnections t = s.phoneConnections t)
    ∧ (∀ c, ((onConnection s ws token client).conns c).sent = (s.conns c).sent) := by
  by_cases htm : tokenMissing token = true
  · have he : onConnection s ws token client = wsClose s ws 1008 "Token required" := by
      simp [onConnection, htm]
    rw [he]
    exact ⟨⟨"Token required", wsClose_closeInfo_self _ _ _ _ hnc⟩,
      wsClose_isOpen_self _ _ _ _ hnc, fun t => rfl, fun t => rfl,
      fun c => wsClose_sent _ _ _ _ _⟩
  · have htm' : tokenMissing token = false := by
      revert htm; cases tokenMissing token <;> simp
    have hvc : validClientType client = false := by
      rcases h with h | h
      · exact absurd h htm
      · exact h
    have he : onConnection s ws token client
        = wsClose s ws 1008 "Client type must be \"pc\" or \"phone\"" := by
      simp [onConnection, htm', hvc]
    rw [he]
    exact ⟨⟨"Client type must be \"pc\" or \"phone\"",
      wsClose_closeInfo_self _ _ _ _ hnc⟩, wsClose_isOpen_self _ _ _ _ hnc,
      fun t => rfl, fun t => rfl, fun c => wsClose_sent _ _ _ _ _⟩

/-- C8 witness: a connection attempt with no token is closed with 1008 and
leaves the registry and every sent list untouched. -/
theorem malformed_handshake_rejected_witness :
    (((onConnection sEmpty 0 none (some "pc")).conns 0).closeInfo).map Prod.fst
        = some 1008
    ∧ ((onConnection sEmpty 0 none (some "pc")).conns 0).isOpen = false
    ∧ (onConnection sEmpty 0 none (some "pc")).pcConnections "t" = sEmpty.pcConnections "t"
    ∧ (onConnection sEmpty 0 none (some "pc")).phoneConnections "t"
        = sEmpty.phoneConnections "t"
    ∧ ((onConnection sEmpty 0 none (some "pc")).conns 1).sent = (sEmpty.conns 1).sent := by
  obtain ⟨⟨r, hr⟩, ho, hm, hm2, hs⟩ :=
    malformed_handshake_rejected sEmpty 0 none (some "pc") (Or.inl rfl) rfl
  exact ⟨by rw [hr]; rfl, ho, hm "t", hm2 "t", hs 1⟩

/-! ### C9: registry entry lifecycle -/

theorem handleDisconnection_pc_slot (s : RelayState) (tk : String) :
    (handleDisconnection s tk "pc").pcConnections tk = none := by
  cases hph : s.phoneConnections tk with
  | none => simp [handleDisconnection, hph]
  | some q =>
      by_cases hq : (s.conns q).isOpen = true <;> simp [handleDisconnection, hph, hq]

theorem handleDisconnection_phone_slot (s : RelayState) (tk : String) :
    (handleDisconnection s tk "phone").phoneConnections tk = none := by
  cases hpc : s.pcConnections tk with
  | none => simp [handleDisconnection, hpc]
  | some p =>
      by_cases hp : (s.conns p).isOpen = true <;> simp [handleDisconnection, hpc, hp]

theorem handleDisconnection_phone_preserves_pc_map (s : RelayState) (tk : String) :
    (handleDisconnection s tk "phone").pcConnections = s.pcConnections := by
  cases hpc : s.pcConnections tk with
  | none => simp [handleDisconnection, hpc]
  | some p =>
      by_cases hp : (s.conns p).isOpen = true <;> simp [handleDisconnection, hpc, hp]

/-- C9 counterexample: PC 0 is registered for token t; after handling its
disconnection the PC map holds nothing for t — the operation deletes the
token entry, so registry entries do not persist until shutdown. -/
theorem disconnect_deletes_registry_entry :
    sPCOnly.pcConnections "t" = some 0
    ∧ (handleDisconnection sPCOnly "t" "pc").pcConnections "t" = none := by
  decide

/-- C9 (amended): handleDisconnection eagerly deletes the (token, role)
entry from the role map, in every state; after both roles of a token have
disconnected, neither map holds anything for the token, so no per-token
state persists. -/
theorem disconnect_clears_slot (s : RelayState) (tk : String) :
    (handleDisconnection s tk "pc").pcConnections tk = none
    ∧ (handleDisconnection s tk "phone").phoneConnections tk = none
    ∧ (handleDisconnection (handleDisconnection s tk "pc") tk "phone").pcConnections tk
        = none
    ∧ (handleDisconnection (handleDisconnection s tk "pc") tk "phone").phoneConnections tk
        = none := by
  refine ⟨handleDisconnection_pc_slot s tk, handleDisconnection_phone_slot s tk, ?_, ?_⟩
  · rw [handleDisconnection_phone_preserves_pc_map]
    exact handleDisconnection_pc_slot s tk
  · exact handleDisconnection_phone_slot _ tk

/-! ### C10: isolation between tokens -/

theorem handlePCConnection_frame (s : RelayState) (ws c : Nat) (tk B : String)
    (hB : B ≠ tk) (hcw : c ≠ ws)
    (hcpc : s.pcConnections tk ≠ some c) (hcph : s.phoneConnections tk ≠ some c) :
    (handlePCConnection s ws tk).pcConnections B = s.pcConnections B
    ∧ (handlePCConnection s ws tk).phoneConnections B = s.phoneConnections B
    ∧ (handlePCConnection s ws tk).conns c = s.conns c := by
  cases hold : s.pcConnections tk with
  | none =>
      cases hph : s.phoneConnections tk with
      | none => simp [handlePCConnection, hold, hph, hB, send_conns_ne _ _ _ _ hcw]
      | some q =>
          have hcq : c ≠ q := fun h => by subst h; exact hcph hph
          by_cases hq : (s.conns q).isOpen = true <;>
            simp [handlePCConnection, hold, hph, hq, hB, send_conns_ne _ _ _ _ hcw,
              send_conns_ne _ _ _ _ hcq]
  | some old =>
      have hco : c ≠ old := fun h => by subst h; exact hcpc hold
      cases hph : s.phoneConnections tk with
      | none =>
          simp [handlePCConnection, hold, hph, hB, send_conns_ne _ _ _ _ hcw,
            wsClose_conns_ne _ _ _ _ _ hco]
      | some q =>
          have hcq : c ≠ q := fun h => by subst h; exact hcph hph
          by_cases hq : ((wsClose s old 1000 "New PC connection").conns q).isOpen = true <;>
            simp [handlePCConnection, hold, hph, hq, hB, send_conns_ne _ _ _ _ hcw,
              send_conns_ne _ _ _ _ hcq, wsClose_conns_ne _ _ _ _ _ hco]

theorem handlePhoneConnection_frame (s : RelayState) (ws c : Nat) (tk B : String)
    (hB : B ≠ tk) (hcw : c ≠ ws)
    (hcpc : s.pcConnections tk ≠ some c) (hcph : s.phoneConnections tk ≠ some c) :
    (handlePhoneConnection s ws tk).pcConnections B = s.pcConnections B
    ∧ (handlePhoneConnection s ws tk).phoneConnections B = s.phoneConnections B
    ∧ (handlePhoneConnection s ws tk).conns c = s.conns c := by
  cases hold : s.phoneConnections tk with
  | none =>
      cases hpc : s.pcConnections tk with
      | none => simp [handlePhoneConnection, hold, hpc, hB, send_conns_ne _ _ _ _ hcw]
      | some p =>
          have hcp : c ≠ p := fun h => by subst h; exact hcpc hpc
          by_cases hp : (s.conns p).isOpen = true <;>
            simp [handlePhoneConnection, hold, hpc, hp, hB, send_conns_ne _ _ _ _ hcw,
              send_conns_ne _ _ _ _ hcp]
  | some old =>
      have hco : c ≠ old := fun h => by subst h; exact hcph hold
      cases hpc : s.pcConnections tk with
      | none =>
          simp [handlePhoneConnection, hold, hpc, hB, send_conns_ne _ _ _ _ hcw,
            wsClose_conns_ne _ _ _ _ _ hco]
      | some p =>
          have hcp : c ≠ p := fun h => by subst h; exact hcpc hpc
          by_cases hp : ((wsClose s old 1000 "New phone connection").conns p).isOpen
              = true <;>
            simp [handlePhoneConnection, hold, hpc, hp, hB, send_conns_ne _ _ _ _ hcw,
              send_conns_ne _ _ _ _ hcp, wsClose_conns_ne _ _ _ _ _ hco]

theorem handleAuthMessage_frame (s : RelayState) (tk ct : String) (d : ParsedMsg) (c : Nat)
    (hcpc : s.pcConnections tk ≠ some c) (hcph : s.phoneConnections tk ≠ some c) :
    (handleAuthMessage s tk ct d).pcConnections = s.pcConnections
    ∧ (handleAuthMessage s tk ct d).phoneConnections = s.phoneConnections
    ∧ (handleAuthMessage s tk ct d).conns c = s.conns c := by
  by_cases hct : ct = "phone"
  · cases htg : s.pcConnections tk with
    | none => simp [handleAuthMessage, hct, htg]
    | some p =>
        have hcp : c ≠ p := fun h => by subst h; exact hcpc htg
        by_cases ho : (s.conns p).isOpen = true <;>
          simp [handleAuthMessage, hct, htg, ho, send_conns_ne _ _ _ _ hcp]
  · cases htg : s.phoneConnections tk with
    | none => simp [handleAuthMessage, hct, htg]
    | some q =>
        have hcq : c ≠ q := fun h => by subst h; exact hcph htg
        by_cases ho : (s.conns q).isOpen = true <;>
          simp [handleAuthMessage, hct, htg, ho, send_conns_ne _ _ _ _ hcq]

theorem handleMessage_frame (s : RelayState) (ws c : Nat) (tk ct : String) (m : InMsg)
    (hcw : c ≠ ws)
    (hcpc : s.pcConnections tk ≠ some c) (hcph : s.phoneConnections tk ≠ some c) :
    (handleMessage s ws tk ct m).pcConnections = s.pcConnections
    ∧ (handleMessage s ws tk ct m).phoneConnections = s.phoneConnections
    ∧ (handleMessage s ws tk ct m).conns c = s.conns c := by
  cases hm : m.parsed with
  | none => simp [handleMessage, hm, send_conns_ne _ _ _ _ hcw]
  | some d =>
      by_cases hauth : d.type = some "auth"
      · obtain ⟨h1, h2, h3⟩ := handleAuthMessage_frame s tk ct d c hcpc hcph
        simp [handleMessage, hm, hauth, h1, h2, h3]
      · by_cases hphc : ct = "phone"
        · cases hpc : s.pcConnections tk with
          | none => simp [handleMessage, hm, hauth, hphc, hpc, send_conns_ne _ _ _ _ hcw]
          | some p =>
              have hcp : c ≠ p := fun h => by subst h; exact hcpc hpc
              by_cases ho : (s.conns p).isOpen = true <;>
                simp [handleMessage, hm, hauth, hphc, hpc, ho,
                  send_conns_ne _ _ _ _ hcw, send_conns_ne _ _ _ _ hcp]
        · by_cases hpcc : ct = "pc"
          · cases hph : s.phoneConnections tk with
            | none => simp [handleMessage, hm, hauth, hphc, hpcc, hph]
            | some q =>
                have hcq : c ≠ q := fun h => by subst h; exact hcph hph
                by_cases ho : (s.conns q).isOpen = true <;>
                  simp [handleMessage, hm, hauth, hphc, hpcc, hph, ho,
                    send_conns_ne _ _ _ _ hcq]
          · simp [handleMessage, hm, hauth, hphc, hpcc]

theorem handleDisconnection_frame (s : RelayState) (c : Nat) (tk ct B : String)
    (hB : B ≠ tk)
    (hcpc : s.pcConnections tk ≠ some c) (hcph : s.phoneConnections tk ≠ some c) :
    (handleDisconnection s tk ct).pcConnections B = s.pcConnections B
    ∧ (handleDisconnection s tk ct).phoneConnections B = s.phoneConnections B
    ∧ (handleDisconnection s tk ct).conns c = s.conns c := by
  by_cases hct : ct = "pc"
  · cases hph : s.phoneConnections tk with
    | none => simp [handleDisconnection, hct, hph, hB]
    | some q =>
        have hcq : c ≠ q := fun h => by subst h; exact hcph hph
        by_cases ho : (s.conns q).isOpen = true <;>
          simp [handleDisconnection, hct, hph, ho, hB, send_conns_ne _ _ _ _ hcq]
  · cases hpc : s.pcConnections tk with
    | none => simp [handleDisconnection, hct, hpc, hB]
    | some p =>
        have hcp : c ≠ p := fun h => by subst h; exact hcpc hpc
        by_cases ho : (s.conns p).isOpen = true <;>
          simp [handleDisconnection, hct, hpc, ho, hB, send_conns_ne _ _ _ _ hcp]

theorem onConnection_frame (s : RelayState) (ws c : Nat) (A B : String)
    (client : Option String) (hB : B ≠ A) (hcw : c ≠ ws)
    (hcpc : s.pcConnections A ≠ some c) (hcph : s.phoneConnections A ≠ some c) :
    (onConnection s ws (some A) client).pcConnections B = s.pcConnections B
    ∧ (onConnection s ws (some A) client).phoneConnections B = s.phoneConnections B
    ∧ (onConnection s ws (some A) client).conns c = s.conns c := by
  by_cases hA : tokenMissing (some A) = true
  · simp [onConnection, hA, wsClose_conns_ne _ _ _ _ _ hcw]
  · have hA' : tokenMissing (some A) = false := by
      revert hA; cases tokenMissing (some A) <;> simp
    by_cases hvc : validClientType client = true
    · by_cases hcl : client = some "pc"
      · subst hcl
        have he : onConnection s ws (some A) (some "pc") = handlePCConnection s ws A := by
          simp [onConnection, hA', validClientType]
        rw [he]
        exact handlePCConnection_frame s ws c A B hB hcw hcpc hcph
      · have hcl2 : client = some "phone" := by
          cases client with
          | none => simp [validClientType] at hvc
          | some cv =>
              simp [validClientType] at hvc
              rcases hvc with h | h
              · exact absurd (by rw [h]) hcl
              · rw [h]
        subst hcl2
        have he : onConnection s ws (some A) (some "phone")
            = handlePhoneConnection s ws A := by
          simp [onConnection, hA', validClientType]
        rw [he]
        exact handlePhoneConnection_frame s ws c A B hB hcw hcpc hcph
    · have hvc' : validClientType client = false := by
        revert hvc; cases validClientType client <;> simp
      simp [onConnection, hA', hvc', wsClose_conns_ne _ _ _ _ _ hcw]

/-- C10: operations performed under token A — a connection accept (with any
client parameter), a message from either role, or a disconnect of either
role — leave both registry slots of any other token B unchanged and leave
the entire connection state (messages received, liveness, close status) of
a connection c registered under B unchanged, provided c is, as in the real
server, a different socket from the acting one and from those registered
under A. -/
theorem token_isolation (s : RelayState) (ws c : Nat) (A B ct : String)
    (client : Option String) (m : InMsg)
    (hreg : s.pcConnections B = some c ∨ s.phoneConnections B = some c)
    (hAB : B ≠ A) (hcw : c ≠ ws)
    (hcpc : s.pcConnections A ≠ some c) (hcph : s.phoneConnections A ≠ some c) :
    ((onConnection s ws (some A) client).pcConnections B = s.pcConnections B
      ∧ (onConnection s ws (some A) client).phoneConnections B = s.phoneConnections B
      ∧ (onConnection s ws (some A) client).conns c = s.conns c)
    ∧ ((handleMessage s ws A ct m).pcConnections B = s.pcConnections B
      ∧ (handleMessage s ws A ct m).phoneConnections B = s.phoneConnections B
      ∧ (handleMessage s ws A ct m).conns c = s.conns c)
    ∧ ((handleDisconnection s A ct).pcConnections B = s.pcConnections B
      ∧ (handleDisconnection s A ct).phoneConnections B = s.phoneConnections B
      ∧ (handleDisconnection s A ct).conns c = s.conns c) := by
  obtain ⟨m1, m2, m3⟩ := handleMessage_frame s ws c A ct m hcw hcpc hcph
  exact ⟨onConnection_frame s ws c A B client hAB hcw hcpc hcph,
    ⟨by rw [m1], by rw [m2], m3⟩,
    handleDisconnection_frame s c A ct B hAB hcpc hcph⟩

/-- C10 witness: activity under token u does not disturb the PC registered
for token t. -/
theorem token_isolation_witness :
    (onConnection sPCOnly 1 (some "u") (some "phone")).pcConnections "t" = some 0
    ∧ (handleMessage sPCOnly 1 "u" "phone" ⟨"x", some ⟨some "click", "x"⟩⟩).conns 0
        = sPCOnly.conns 0
    ∧ (handleDisconnection sPCOnly "u" "phone").pcConnections "t" = some 0 := by
  have h := token_isolation sPCOnly 1 0 "u" "t" "phone" (some "phone")
      ⟨"x", some ⟨some "click", "x"⟩⟩ (Or.inl rfl) (by decide) (by decide)
      (by decide) (by decide)
  exact ⟨by rw [h.1.1]; rfl, h.2.1.2.2, by rw [h.2.2.1]; rfl⟩
